import Mathlib

/-! The registration and login handlers of api-edutrash (`src/index.js`).

A shallow embedding of the two route handlers `app.post('/register')`
(index.js lines 64-104) and `app.post('/login')` (lines 107-148).

* The `users` table is a list of rows, oldest first.  The query
  `SELECT * FROM users WHERE email = $1` keeps the rows whose email equals the
  parameter; `INSERT ... RETURNING *` appends the row and returns it.
* The collaborators (`pool.query`, `bcrypt.hash`, `bcrypt.compare`,
  `jwt.sign`, `Math.random`, `process.env.JWT_SECRET`) are the fields of an
  `Env`: how they behave while one request is served.  Each of them may throw.
  The table's constraints are not part of the source file; a constraint
  violation is one of the ways in which the INSERT may throw.
* A handler is a state-passing computation over the table and a log of the
  collaborator calls it made, which either yields a value or throws.  The
  `try`/`catch` of the source is `Handler.tryCatch`.
* `req.body` is the object the middleware of lines 61-62 parsed, and the fields
  the handlers read from it are strings.  The `console.log` and `console.error`
  lines write to the server console only and are left out.
* `Math.floor(Math.random() * 100)` is a number from 0 to 99, so the id of
  line 84 is a number from 1 to 100, drawn without looking at the table.
-/

namespace EduTrash

/-! ## Data model -/

/-- An exception thrown by a collaborator. -/
structure Err where
  msg : String
deriving DecidableEq

/-- A row of the `users` table: the columns named by the INSERT of line 86. -/
structure User where
  id : Int
  username : String
  email : String
  password : String
deriving DecidableEq

/-- JSON values, as far as the response bodies of the two handlers need them. -/
inductive Json where
  | null
  | num (n : Int)
  | str (s : String)
  | obj (fields : List (String × Json))

/-- The value of field `k` of a JSON object (`none` when absent or not an object). -/
def Json.get? (j : Json) (k : String) : Option Json :=
  match j with
  | .obj fields => fields.lookup k
  | _ => none

/-- The field names of a JSON object, in order. -/
def Json.keys (j : Json) : List String :=
  match j with
  | .obj fields => fields.map Prod.fst
  | _ => []

/-- What `res.status(s).json(b)` sends. -/
structure Response where
  status : Nat
  body : Json

/-- The payload `{id: user.id, username: user.username}` of line 120. -/
structure Claims where
  id : Int
  username : String
deriving DecidableEq

/-- A call made to a collaborator. -/
inductive Call where
  /-- The query `pool.query("SELECT * FROM users WHERE email = $1", [email])` -/
  | select (email : String)
  /-- The call `bcrypt.hash(data, rounds)` -/
  | hash (data : String) (rounds : Nat)
  /-- The query `pool.query("INSERT INTO users (id,username,email,password) ...", row)` -/
  | insert (row : User)
  /-- The call `bcrypt.compare(data, encrypted)` -/
  | compare (data : String) (encrypted : String)
  /-- The call `jwt.sign(claims, secret, {expiresIn})` -/
  | sign (claims : Claims) (secret : Option String) (expiresIn : String)
deriving DecidableEq

/-- Whether the call is a call of the password hasher `bcrypt.hash`. -/
def Call.isHash : Call → Bool
  | .hash _ _ => true
  | _ => false

/-- Whether the call is the INSERT query. -/
def Call.isInsert : Call → Bool
  | .insert _ => true
  | _ => false

/-- How the collaborators behave while one request is served. -/
structure Env where
  /-- Holds `some e` when the SELECT query throws `e` -/
  selectError : Option Err
  /-- Holds `some e` when the INSERT query throws `e` -/
  insertError : Option Err
  /-- The result of `bcrypt.hash(data, rounds)` -/
  bcryptHash : String → Nat → Except Err String
  /-- The result of `bcrypt.compare(data, encrypted)` -/
  bcryptCompare : String → String → Except Err Bool
  /-- The value of `Math.floor(Math.random() * 100)`: `Math.random()` is in `[0, 1)` -/
  random100 : Fin 100
  /-- The result of `jwt.sign(claims, secret, {expiresIn})` -/
  jwtSign : Claims → Option String → String → Except Err String
  /-- The value of `process.env.JWT_SECRET` -/
  JWT_SECRET : Option String

/-- The state a handler runs in: the `users` table and the log of the
collaborator calls made so far, oldest first. -/
structure World where
  users : List User
  calls : List Call
deriving DecidableEq

/-! ## Handlers as computations -/

/-- A computation that yields a value or throws, and changes the world either way. -/
def Handler (α : Type) : Type := World → Except Err α × World

/-- A computation that yields `a` and leaves the world alone. -/
def Handler.pure {α : Type} (a : α) : Handler α :=
  fun w => (.ok a, w)

/-- Sequencing: a throw of the first computation skips the second. -/
def Handler.bind {α β : Type} (m : Handler α) (f : α → Handler β) : Handler β :=
  fun w =>
    match m w with
    | (.ok a, w1) => f a w1
    | (.error e, w1) => (.error e, w1)

instance : Monad Handler where
  pure := Handler.pure
  bind := Handler.bind

/-- The statement `try { body } catch (e) { handler e }`. -/
def Handler.tryCatch {α : Type} (body : Handler α) (handler : Err → Handler α) : Handler α :=
  fun w =>
    match body w with
    | (.ok a, w1) => (.ok a, w1)
    | (.error e, w1) => handler e w1

/-- Appends a call to the log. -/
def World.record (w : World) (c : Call) : World :=
  { w with calls := w.calls ++ [c] }

/-- The rows of `SELECT * FROM users WHERE email = $1`. -/
def selectByEmail (users : List User) (email : String) : List User :=
  users.filter (fun u => u.email == email)

/-- The call `await pool.query("SELECT * FROM users WHERE email = $1", [email])`,
yielding `rows`. -/
def querySelect (env : Env) (email : String) : Handler (List User) :=
  fun w =>
    match env.selectError with
    | some e => (.error e, w.record (.select email))
    | none => (.ok (selectByEmail w.users email), w.record (.select email))

/-- The call `await pool.query("INSERT INTO users ... RETURNING *", [id, username,
email, hashedPassword])`, yielding `rows`. -/
def queryInsert (env : Env) (row : User) : Handler (List User) :=
  fun w =>
    match env.insertError with
    | some e => (.error e, w.record (.insert row))
    | none => (.ok [row], { (w.record (.insert row)) with users := w.users ++ [row] })

/-- The call `await bcrypt.hash(data, rounds)`. -/
def hash (env : Env) (data : String) (rounds : Nat) : Handler String :=
  fun w => (env.bcryptHash data rounds, w.record (.hash data rounds))

/-- The call `await bcrypt.compare(data, encrypted)`. -/
def compare (env : Env) (data encrypted : String) : Handler Bool :=
  fun w => (env.bcryptCompare data encrypted, w.record (.compare data encrypted))

/-- The call `jwt.sign(claims, process.env.JWT_SECRET, {expiresIn})`. -/
def sign (env : Env) (claims : Claims) (expiresIn : String) : Handler String :=
  fun w => (env.jwtSign claims env.JWT_SECRET expiresIn,
    w.record (.sign claims env.JWT_SECRET expiresIn))

/-! ## POST /register -/

/-- The body of a registration request: `{username, email, password}`. -/
structure RegisterBody where
  username : String
  email : String
  password : String
deriving DecidableEq

/-- The response of line 78. -/
def registerConflict : Response :=
  ⟨409, .obj [("message", .str "Email sudah terdaftar !")]⟩

/-- The response of line 89. -/
def registerCreated (id : Int) (username email : String) : Response :=
  ⟨201, .obj [("message", .str "Registrasi berhasil"),
    ("data", .obj [("id", .num id), ("username", .str username), ("email", .str email)])]⟩

/-- The response of line 100. -/
def registerInternalError : Response :=
  ⟨500, .obj [("message", .str "Internal server error")]⟩

/-- The row the INSERT of line 85 is given. -/
def newUser (env : Env) (body : RegisterBody) (hashedPassword : String) : User :=
  ⟨(env.random100.val : Int) + 1, body.username, body.email, hashedPassword⟩

/-- The `try` block of the register handler (lines 67-96). -/
def registerTry (env : Env) (body : RegisterBody) : Handler Response := do
  let checkEmail ← querySelect env body.email
  if checkEmail.length > 0 then
    pure registerConflict
  else
    let hashedPassword ← hash env body.password 10
    let id : Int := (env.random100.val : Int) + 1
    let register ← queryInsert env ⟨id, body.username, body.email, hashedPassword⟩
    let _result := register.head?
    pure (registerCreated id body.username body.email)

/-- The handler of `app.post('/register')` (lines 64-104). -/
def register (env : Env) (body : RegisterBody) : Handler Response :=
  Handler.tryCatch (registerTry env body) (fun _ => pure registerInternalError)

/-! ## POST /login -/

/-- The body of a login request: `{email, password}`. -/
structure LoginBody where
  email : String
  password : String
deriving DecidableEq

/-- The response of line 124. -/
def loginOk (user : User) (token : String) : Response :=
  ⟨200, .obj [("message", .str "Login Berhasil"), ("username", .str user.username),
    ("email", .str user.email), ("token", .str token)]⟩

/-- The response of line 131. -/
def loginUnauthorized : Response :=
  ⟨401, .obj [("message", .str "Username atau password salah"), ("username", .null),
    ("email", .null), ("token", .null)]⟩

/-- The response of line 141. -/
def loginInternalError : Response :=
  ⟨500, .obj [("message", .str "Internal Server Error"), ("username", .null),
    ("email", .null), ("token", .null)]⟩

/-- The `try` block of the login handler (lines 113-137). -/
def loginTry (env : Env) (body : LoginBody) : Handler Response := do
  let checkEmail ← querySelect env body.email
  let user := checkEmail.head?
  let comparePass ← match user with
    | some u => (do let b ← compare env body.password u.password; pure (some b))
    | none => (pure none : Handler (Option Bool))
  match user, comparePass with
  | some u, some true =>
    let token ← sign env ⟨u.id, u.username⟩ "30d"
    pure (loginOk u token)
  | _, _ => pure loginUnauthorized

/-- The handler of `app.post('/login')` (lines 107-148). -/
def login (env : Env) (body : LoginBody) : Handler Response :=
  Handler.tryCatch (loginTry env body) (fun _ => pure loginInternalError)

/-! ## Running requests -/

/-- Serves one request on a table, with an empty call log. -/
def serve {α : Type} (h : Handler α) (users : List User) : Except Err α × World :=
  h ⟨users, []⟩

/-- The table after a sequence of registration requests, served one after the other. -/
def registerAll : List (Env × RegisterBody) → List User → List User
  | [], users => users
  | (env, body) :: rest, users => registerAll rest (serve (register env body) users).2.users

/-- No two rows of the table have the same email. -/
def EmailUnique (users : List User) : Prop :=
  users.Pairwise (fun a b => a.email ≠ b.email)

/-- No two rows of the table have the same id. -/
def IdUnique (users : List User) : Prop :=
  users.Pairwise (fun a b => a.id ≠ b.id)

/-- The status code of the response a run ended with (`none` when an exception
escaped the handler and nothing was sent). -/
def statusOf (r : Except Err Response) : Option Nat :=
  match r with
  | .ok resp => some resp.status
  | .error _ => none

/-- No collaborator throws: both queries return, and the hasher, the verifier and
the signer (under the configured secret) return a value on every input. -/
def Env.NoThrow (env : Env) : Prop :=
  env.selectError = none ∧ env.insertError = none
    ∧ (∀ d r, ∃ h, env.bcryptHash d r = .ok h)
    ∧ (∀ d h, ∃ b, env.bcryptCompare d h = .ok b)
    ∧ (∀ c x, ∃ t, env.jwtSign c env.JWT_SECRET x = .ok t)

/-- Verifying a plaintext against its own hash returns true. -/
def Env.HashVerifies (env : Env) : Prop :=
  ∀ d r h, env.bcryptHash d r = .ok h → env.bcryptCompare d h = .ok true

/-! ## Sample collaborators -/

/-- A toy hasher: the hash of `p` at cost `r` is `"$" ++ p`. -/
def toyHash (data : String) (_rounds : Nat) : Except Err String := .ok ("$" ++ data)

/-- The matching verifier. -/
def toyCompare (data encrypted : String) : Except Err Bool := .ok (("$" ++ data) == encrypted)

/-- A toy signer. -/
def toySign (claims : Claims) (secret : Option String) (expiresIn : String) : Except Err String :=
  match secret with
  | some s => .ok (claims.username ++ "." ++ s ++ "." ++ expiresIn)
  | none => .error ⟨"secretOrPrivateKey must have a value"⟩

/-- Collaborators that all work; `Math.floor(Math.random() * 100)` is `n`. -/
def sampleEnv (n : Fin 100) : Env :=
  ⟨none, none, toyHash, toyCompare, n, toySign, some "k"⟩

/-- A table with one account. -/
def sampleUsers : List User := [⟨1, "bob", "b@x.com", "$hunter2"⟩]

/-- Collaborators whose store is down: both queries throw. -/
def downEnv : Env :=
  ⟨some ⟨"ECONNREFUSED"⟩, some ⟨"ECONNREFUSED"⟩, toyHash, toyCompare, 0, toySign, some "k"⟩

/-- Collaborators whose hasher throws. -/
def brokenHashEnv : Env :=
  ⟨none, none, fun _ _ => .error ⟨"data and salt arguments required"⟩, toyCompare, 0, toySign,
    some "k"⟩

/-- A table whose account has, in its password column, the string `"hunter2"`. -/
def plainUsers : List User := [⟨1, "bob", "b@x.com", "hunter2"⟩]

/-! ## The runs of the register handler, case by case -/

theorem serve_register_selectError (env : Env) (body : RegisterBody) (users : List User)
    (e : Err) (hs : env.selectError = some e) :
    serve (register env body) users
      = (.ok registerInternalError, ⟨users, [.select body.email]⟩) := by
  simp [serve, register, registerTry, Handler.tryCatch, querySelect, bind, Handler.bind, hs,
    World.record, pure, Handler.pure]

theorem serve_register_conflict (env : Env) (body : RegisterBody) (users : List User)
    (hs : env.selectError = none) (hdup : selectByEmail users body.email ≠ []) :
    serve (register env body) users
      = (.ok registerConflict, ⟨users, [.select body.email]⟩) := by
  have hlen : 0 < (selectByEmail users body.email).length := List.length_pos.mpr hdup
  simp [serve, register, registerTry, Handler.tryCatch, querySelect, bind, Handler.bind, hs,
    World.record, pure, Handler.pure, hlen]

theorem serve_register_hashError (env : Env) (body : RegisterBody) (users : List User)
    (e : Err) (hs : env.selectError = none) (hfree : selectByEmail users body.email = [])
    (hh : env.bcryptHash body.password 10 = .error e) :
    serve (register env body) users
      = (.ok registerInternalError,
          ⟨users, [.select body.email, .hash body.password 10]⟩) := by
  simp [serve, register, registerTry, Handler.tryCatch, querySelect, bind, Handler.bind, hs,
    World.record, pure, Handler.pure, hfree, hash, hh]

theorem serve_register_insertError (env : Env) (body : RegisterBody) (users : List User)
    (e : Err) (h : String) (hs : env.selectError = none)
    (hfree : selectByEmail users body.email = [])
    (hh : env.bcryptHash body.password 10 = .ok h) (hi : env.insertError = some e) :
    serve (register env body) users
      = (.ok registerInternalError,
          ⟨users, [.select body.email, .hash body.password 10,
            .insert (newUser env body h)]⟩) := by
  simp [serve, register, registerTry, Handler.tryCatch, querySelect, bind, Handler.bind, hs,
    World.record, pure, Handler.pure, hfree, hash, hh, queryInsert, hi, newUser]

theorem serve_register_created (env : Env) (body : RegisterBody) (users : List User)
    (h : String) (hs : env.selectError = none)
    (hfree : selectByEmail users body.email = [])
    (hh : env.bcryptHash body.password 10 = .ok h) (hi : env.insertError = none) :
    serve (register env body) users
      = (.ok (registerCreated ((env.random100.val : Int) + 1) body.username body.email),
          ⟨users ++ [newUser env body h], [.select body.email, .hash body.password 10,
            .insert (newUser env body h)]⟩) := by
  simp [serve, register, registerTry, Handler.tryCatch, querySelect, bind, Handler.bind, hs,
    World.record, pure, Handler.pure, hfree, hash, hh, queryInsert, hi, newUser]

/-! ## The runs of the login handler, case by case -/

theorem serve_login_selectError (env : Env) (body : LoginBody) (users : List User)
    (e : Err) (hs : env.selectError = some e) :
    serve (login env body) users
      = (.ok loginInternalError, ⟨users, [.select body.email]⟩) := by
  simp [serve, login, loginTry, Handler.tryCatch, querySelect, bind, Handler.bind, hs,
    World.record, pure, Handler.pure]

theorem serve_login_unknown (env : Env) (body : LoginBody) (users : List User)
    (hs : env.selectError = none) (hnone : (selectByEmail users body.email).head? = none) :
    serve (login env body) users
      = (.ok loginUnauthorized, ⟨users, [.select body.email]⟩) := by
  simp [serve, login, loginTry, Handler.tryCatch, querySelect, bind, Handler.bind, hs,
    World.record, pure, Handler.pure, hnone]

theorem serve_login_compareError (env : Env) (body : LoginBody) (users : List User)
    (u : User) (e : Err) (hs : env.selectError = none)
    (hu : (selectByEmail users body.email).head? = some u)
    (hc : env.bcryptCompare body.password u.password = .error e) :
    serve (login env body) users
      = (.ok loginInternalError,
          ⟨users, [.select body.email, .compare body.password u.password]⟩) := by
  simp [serve, login, loginTry, Handler.tryCatch, querySelect, bind, Handler.bind, hs,
    World.record, pure, Handler.pure, hu, compare, hc]

theorem serve_login_mismatch (env : Env) (body : LoginBody) (users : List User)
    (u : User) (hs : env.selectError = none)
    (hu : (selectByEmail users body.email).head? = some u)
    (hc : env.bcryptCompare body.password u.password = .ok false) :
    serve (login env body) users
      = (.ok loginUnauthorized,
          ⟨users, [.select body.email, .compare body.password u.password]⟩) := by
  simp [serve, login, loginTry, Handler.tryCatch, querySelect, bind, Handler.bind, hs,
    World.record, pure, Handler.pure, hu, compare, hc]

theorem serve_login_signError (env : Env) (body : LoginBody) (users : List User)
    (u : User) (e : Err) (hs : env.selectError = none)
    (hu : (selectByEmail users body.email).head? = some u)
    (hc : env.bcryptCompare body.password u.password = .ok true)
    (ht : env.jwtSign ⟨u.id, u.username⟩ env.JWT_SECRET "30d" = .error e) :
    serve (login env body) users
      = (.ok loginInternalError,
          ⟨users, [.select body.email, .compare body.password u.password,
            .sign ⟨u.id, u.username⟩ env.JWT_SECRET "30d"]⟩) := by
  simp [serve, login, loginTry, Handler.tryCatch, querySelect, bind, Handler.bind, hs,
    World.record, pure, Handler.pure, hu, compare, hc, sign, ht]

theorem serve_login_ok (env : Env) (body : LoginBody) (users : List User)
    (u : User) (token : String) (hs : env.selectError = none)
    (hu : (selectByEmail users body.email).head? = some u)
    (hc : env.bcryptCompare body.password u.password = .ok true)
    (ht : env.jwtSign ⟨u.id, u.username⟩ env.JWT_SECRET "30d" = .ok token) :
    serve (login env body) users
      = (.ok (loginOk u token),
          ⟨users, [.select body.email, .compare body.password u.password,
            .sign ⟨u.id, u.username⟩ env.JWT_SECRET "30d"]⟩) := by
  simp [serve, login, loginTry, Handler.tryCatch, querySelect, bind, Handler.bind, hs,
    World.record, pure, Handler.pure, hu, compare, hc, sign, ht]

/-! ## Facts about the table -/

theorem selectByEmail_eq_nil_iff (users : List User) (email : String) :
    selectByEmail users email = [] ↔ ∀ u ∈ users, u.email ≠ email := by
  simp [selectByEmail, List.filter_eq_nil_iff]

theorem selectByEmail_ne_nil (users : List User) (email : String)
    (h : ∃ u ∈ users, u.email = email) : selectByEmail users email ≠ [] := by
  intro hnil
  obtain ⟨u, hu, he⟩ := h
  exact (selectByEmail_eq_nil_iff users email).mp hnil u hu he

theorem selectByEmail_append (users : List User) (row : User) (email : String) :
    selectByEmail (users ++ [row]) email
      = selectByEmail users email ++ (if row.email = email then [row] else []) := by
  by_cases h : row.email = email <;> simp [selectByEmail, List.filter_append, List.filter_cons, h]

/-- The first row the SELECT returns for the email of `u`, when `u` is the only
account of the table with that email, is `u`. -/
theorem head_selectByEmail_of_only (users : List User) (u : User) (hu : u ∈ users)
    (honly : ∀ v ∈ users, v.email = u.email → v = u) :
    (selectByEmail users u.email).head? = some u := by
  have hne : selectByEmail users u.email ≠ [] := selectByEmail_ne_nil users u.email ⟨u, hu, rfl⟩
  cases hsel : selectByEmail users u.email with
  | nil => exact absurd hsel hne
  | cons v rest =>
    have hv : v ∈ selectByEmail users u.email := by rw [hsel]; exact List.mem_cons_self v rest
    simp only [selectByEmail, List.mem_filter, beq_iff_eq] at hv
    simp [honly v hv.1 hv.2]

theorem EmailUnique.only {users : List User} (h : EmailUnique users) (u : User) (hu : u ∈ users) :
    ∀ v ∈ users, v.email = u.email → v = u := by
  unfold EmailUnique at h
  induction users with
  | nil => simp at hu
  | cons x rest ih =>
    rw [List.pairwise_cons] at h
    intro v hv he
    rcases List.mem_cons.mp hu with rfl | hu1
    · rcases List.mem_cons.mp hv with rfl | hv1
      · rfl
      · exact absurd he.symm (h.1 v hv1)
    · rcases List.mem_cons.mp hv with rfl | hv1
      · exact absurd he (h.1 u hu1)
      · exact ih h.2 hu1 v hv1 he

theorem EmailUnique.append_fresh {users : List User} (h : EmailUnique users) (row : User)
    (hfresh : ∀ u ∈ users, u.email ≠ row.email) : EmailUnique (users ++ [row]) := by
  unfold EmailUnique at *
  rw [List.pairwise_append]
  refine ⟨h, List.pairwise_singleton _ _, ?_⟩
  intro a ha b hb
  rw [List.mem_singleton] at hb
  subst hb
  exact hfresh a ha

/-! ## Every run is one of the cases -/

/-- Every run of the register handler is one of the five runs above. -/
theorem serve_register_cases (env : Env) (body : RegisterBody) (users : List User) :
    (env.selectError ≠ none
        ∧ serve (register env body) users
          = (.ok registerInternalError, ⟨users, [.select body.email]⟩))
    ∨ (env.selectError = none ∧ selectByEmail users body.email ≠ []
        ∧ serve (register env body) users
          = (.ok registerConflict, ⟨users, [.select body.email]⟩))
    ∨ (env.selectError = none ∧ selectByEmail users body.email = []
        ∧ (∃ e, env.bcryptHash body.password 10 = .error e)
        ∧ serve (register env body) users
          = (.ok registerInternalError,
              ⟨users, [.select body.email, .hash body.password 10]⟩))
    ∨ (∃ h, env.selectError = none ∧ selectByEmail users body.email = []
        ∧ env.bcryptHash body.password 10 = .ok h ∧ env.insertError ≠ none
        ∧ serve (register env body) users
          = (.ok registerInternalError,
              ⟨users, [.select body.email, .hash body.password 10,
                .insert (newUser env body h)]⟩))
    ∨ (∃ h, env.selectError = none ∧ selectByEmail users body.email = []
        ∧ env.bcryptHash body.password 10 = .ok h ∧ env.insertError = none
        ∧ serve (register env body) users
          = (.ok (registerCreated ((env.random100.val : Int) + 1) body.username body.email),
              ⟨users ++ [newUser env body h], [.select body.email, .hash body.password 10,
                .insert (newUser env body h)]⟩)) := by
  cases hs : env.selectError with
  | some e => exact Or.inl ⟨by simp, serve_register_selectError env body users e hs⟩
  | none =>
    by_cases hsel : selectByEmail users body.email = []
    · cases hh : env.bcryptHash body.password 10 with
      | error e =>
        exact Or.inr (Or.inr (Or.inl
          ⟨rfl, hsel, ⟨e, rfl⟩, serve_register_hashError env body users e hs hsel hh⟩))
      | ok h =>
        cases hi : env.insertError with
        | some e =>
          exact Or.inr (Or.inr (Or.inr (Or.inl
            ⟨h, rfl, hsel, rfl, by simp,
              serve_register_insertError env body users e h hs hsel hh hi⟩)))
        | none =>
          exact Or.inr (Or.inr (Or.inr (Or.inr
            ⟨h, rfl, hsel, rfl, rfl, serve_register_created env body users h hs hsel hh hi⟩)))
    · exact Or.inr (Or.inl ⟨rfl, hsel, serve_register_conflict env body users hs hsel⟩)

/-- Every run of the login handler ends with one of its three responses; the
response of line 124 is sent only when the lookup returned, the verifier
returned true for the first row found, and the signer returned a token. -/
theorem serve_login_cases (env : Env) (body : LoginBody) (users : List User) :
    (serve (login env body) users).1 = .ok loginInternalError
    ∨ (serve (login env body) users).1 = .ok loginUnauthorized
    ∨ (∃ u token, env.selectError = none
        ∧ (selectByEmail users body.email).head? = some u
        ∧ env.bcryptCompare body.password u.password = .ok true
        ∧ env.jwtSign ⟨u.id, u.username⟩ env.JWT_SECRET "30d" = .ok token
        ∧ (serve (login env body) users).1 = .ok (loginOk u token)) := by
  cases hs : env.selectError with
  | some e => exact Or.inl (by rw [serve_login_selectError env body users e hs])
  | none =>
    cases hu : (selectByEmail users body.email).head? with
    | none => exact Or.inr (Or.inl (by rw [serve_login_unknown env body users hs hu]))
    | some u =>
      cases hc : env.bcryptCompare body.password u.password with
      | error e => exact Or.inl (by rw [serve_login_compareError env body users u e hs hu hc])
      | ok b =>
        cases b with
        | false => exact Or.inr (Or.inl (by rw [serve_login_mismatch env body users u hs hu hc]))
        | true =>
          cases ht : env.jwtSign ⟨u.id, u.username⟩ env.JWT_SECRET "30d" with
          | error e =>
            exact Or.inl (by rw [serve_login_signError env body users u e hs hu hc ht])
          | ok token =>
            exact Or.inr (Or.inr ⟨u, token, rfl, rfl, hc, ht,
              by rw [serve_login_ok env body users u token hs hu hc ht]⟩)

/-- A run of the register handler leaves the table alone or appends one row,
whose email no row of the table had. -/
theorem register_users (env : Env) (body : RegisterBody) (users : List User) :
    (serve (register env body) users).2.users = users
    ∨ (∃ h, (∀ u ∈ users, u.email ≠ body.email)
        ∧ (serve (register env body) users).2.users = users ++ [newUser env body h]) := by
  rcases serve_register_cases env body users with ⟨_, h⟩ | ⟨_, _, h⟩ | ⟨_, _, _, h⟩
    | ⟨_, _, _, _, _, h⟩ | ⟨x, _, hsel, _, _, h⟩
  · exact Or.inl (by rw [h])
  · exact Or.inl (by rw [h])
  · exact Or.inl (by rw [h])
  · exact Or.inl (by rw [h])
  · exact Or.inr ⟨x, (selectByEmail_eq_nil_iff users body.email).mp hsel, by rw [h]⟩

/-! ## The claims -/

/-- C1: when the table already holds an account with email `email` and the lookup
returns, POST /register with that email, any username and any password answers
with status 409, makes no call to the password hasher and no INSERT (the lookup
is the only call it makes), and leaves the table exactly as it was. -/
theorem register_duplicate_email (env : Env) (users : List User)
    (username email password : String)
    (hs : env.selectError = none) (hreg : ∃ u ∈ users, u.email = email) :
    ∃ resp, (serve (register env ⟨username, email, password⟩) users).1 = .ok resp
      ∧ resp.status = 409
      ∧ (serve (register env ⟨username, email, password⟩) users).2.calls = [.select email]
      ∧ (∀ c ∈ (serve (register env ⟨username, email, password⟩) users).2.calls,
          c.isHash = false ∧ c.isInsert = false)
      ∧ (serve (register env ⟨username, email, password⟩) users).2.users = users := by
  have hrun := serve_register_conflict env ⟨username, email, password⟩ users hs
    (selectByEmail_ne_nil users email hreg)
  refine ⟨registerConflict, ?_, rfl, ?_, ?_, ?_⟩
  · rw [hrun]
  · rw [hrun]
  · rw [hrun]
    intro c hc
    rw [List.mem_singleton] at hc
    subst hc
    exact ⟨rfl, rfl⟩
  · rw [hrun]

theorem register_duplicate_email_witness :
    (sampleEnv 0).selectError = none ∧ (∃ u ∈ sampleUsers, u.email = "b@x.com")
      ∧ ∃ resp, (serve (register (sampleEnv 0) ⟨"eve", "b@x.com", "pw"⟩) sampleUsers).1 = .ok resp
        ∧ resp.status = 409
        ∧ (serve (register (sampleEnv 0) ⟨"eve", "b@x.com", "pw"⟩) sampleUsers).2.calls
            = [.select "b@x.com"]
        ∧ (∀ c ∈ (serve (register (sampleEnv 0) ⟨"eve", "b@x.com", "pw"⟩) sampleUsers).2.calls,
            c.isHash = false ∧ c.isInsert = false)
        ∧ (serve (register (sampleEnv 0) ⟨"eve", "b@x.com", "pw"⟩) sampleUsers).2.users
            = sampleUsers :=
  ⟨rfl, ⟨⟨1, "bob", "b@x.com", "$hunter2"⟩, List.mem_singleton.mpr rfl, rfl⟩,
    register_duplicate_email (sampleEnv 0) sampleUsers "eve" "b@x.com" "pw" rfl
      ⟨⟨1, "bob", "b@x.com", "$hunter2"⟩, List.mem_singleton.mpr rfl, rfl⟩⟩

/-- C2: for every username, email and non-empty password, and every table with no
account for that email, when no collaborator throws and the hasher verifies a
plaintext against its own hash, POST /register answers with status 201, and
POST /login with the same email and password on the resulting table answers with
status 200 and a token that is a string (not null). -/
theorem register_then_login (env : Env) (users : List User)
    (username email password : String)
    (hpw : password ≠ "") (hfree : ∀ u ∈ users, u.email ≠ email)
    (hok : env.NoThrow) (hv : env.HashVerifies) :
    ∃ resp, (serve (register env ⟨username, email, password⟩) users).1 = .ok resp
      ∧ resp.status = 201
      ∧ ∃ resp2 token,
          (serve (login env ⟨email, password⟩)
            (serve (register env ⟨username, email, password⟩) users).2.users).1 = .ok resp2
          ∧ resp2.status = 200
          ∧ resp2.body.get? "token" = some (.str token) := by
  have _ := hpw
  obtain ⟨hs, hi, hhash, _, hsign⟩ := hok
  obtain ⟨h, hh⟩ := hhash password 10
  have hnil : selectByEmail users email = [] := (selectByEmail_eq_nil_iff users email).mpr hfree
  have hrun := serve_register_created env ⟨username, email, password⟩ users h hs hnil hh hi
  obtain ⟨token, ht⟩ := hsign ⟨(env.random100.val : Int) + 1, username⟩ "30d"
  have hhead : (selectByEmail (users ++ [newUser env ⟨username, email, password⟩ h])
      (LoginBody.mk email password).email).head?
      = some (newUser env ⟨username, email, password⟩ h) := by
    rw [selectByEmail_append]
    simp [hnil, newUser]
  have hlogin := serve_login_ok env ⟨email, password⟩
    (users ++ [newUser env ⟨username, email, password⟩ h])
    (newUser env ⟨username, email, password⟩ h) token hs hhead (hv password 10 h hh) ht
  refine ⟨registerCreated ((env.random100.val : Int) + 1) username email, ?_, rfl,
    loginOk (newUser env ⟨username, email, password⟩ h) token, token, ?_, rfl, ?_⟩
  · rw [hrun]
  · rw [hrun, hlogin]
  · simp [loginOk, Json.get?, List.lookup]

theorem sampleEnv_noThrow (n : Fin 100) : (sampleEnv n).NoThrow :=
  ⟨rfl, rfl, fun d _ => ⟨"$" ++ d, rfl⟩, fun d h => ⟨("$" ++ d) == h, rfl⟩,
    fun c x => ⟨c.username ++ "." ++ "k" ++ "." ++ x, rfl⟩⟩

theorem sampleEnv_hashVerifies (n : Fin 100) : (sampleEnv n).HashVerifies := by
  intro d r h hh
  simp only [sampleEnv, toyHash, Except.ok.injEq] at hh
  subst hh
  simp [sampleEnv, toyCompare]

theorem register_then_login_witness :
    ("secret123" ≠ "") ∧ (∀ u ∈ sampleUsers, u.email ≠ "a@x.com")
      ∧ (sampleEnv 6).NoThrow ∧ (sampleEnv 6).HashVerifies
      ∧ ∃ resp, (serve (register (sampleEnv 6) ⟨"alice", "a@x.com", "secret123"⟩)
            sampleUsers).1 = .ok resp
        ∧ resp.status = 201
        ∧ ∃ resp2 token,
            (serve (login (sampleEnv 6) ⟨"a@x.com", "secret123"⟩)
              (serve (register (sampleEnv 6) ⟨"alice", "a@x.com", "secret123"⟩)
                sampleUsers).2.users).1 = .ok resp2
            ∧ resp2.status = 200
            ∧ resp2.body.get? "token" = some (.str token) :=
  ⟨by decide, by decide, sampleEnv_noThrow 6, sampleEnv_hashVerifies 6,
    register_then_login (sampleEnv 6) sampleUsers "alice" "a@x.com" "secret123"
      (by decide) (by decide) (sampleEnv_noThrow 6) (sampleEnv_hashVerifies 6)⟩

/-- C3: on every table, when the lookup returns, POST /login for a registered
email with a password that does not verify against the stored hash, and
POST /login for an email that has no account, send the same response: the same
status, 401, and the same JSON body, field by field. -/
theorem login_wrong_password_same_as_unknown (env : Env) (users : List User)
    (email password email2 password2 : String)
    (hs : env.selectError = none)
    (hreg : ∃ u ∈ users, u.email = email)
    (hwrong : ∀ u ∈ users, u.email = email → env.bcryptCompare password u.password = .ok false)
    (hunknown : ∀ u ∈ users, u.email ≠ email2) :
    ∃ resp, (serve (login env ⟨email, password⟩) users).1 = .ok resp
      ∧ (serve (login env ⟨email2, password2⟩) users).1 = .ok resp
      ∧ resp.status = 401 := by
  have hnil : selectByEmail users email2 = [] :=
    (selectByEmail_eq_nil_iff users email2).mpr hunknown
  have hrun2 := serve_login_unknown env ⟨email2, password2⟩ users hs
    (by simp only [hnil, List.head?_nil])
  cases hsel : selectByEmail users email with
  | nil => exact absurd hsel (selectByEmail_ne_nil users email hreg)
  | cons u rest =>
    have hu : u ∈ selectByEmail users email := by rw [hsel]; exact List.mem_cons_self u rest
    simp only [selectByEmail, List.mem_filter, beq_iff_eq] at hu
    have hrun1 := serve_login_mismatch env ⟨email, password⟩ users u hs
      (by simp only [hsel, List.head?_cons]) (hwrong u hu.1 hu.2)
    exact ⟨loginUnauthorized, by rw [hrun1], by rw [hrun2], rfl⟩

theorem sampleUsers_wrong : ∀ u ∈ sampleUsers, u.email = "b@x.com" →
    (sampleEnv 0).bcryptCompare "wrong" u.password = .ok false := by
  intro u hu _
  rw [sampleUsers, List.mem_singleton] at hu
  subst hu
  rfl

theorem login_wrong_password_same_as_unknown_witness :
    (sampleEnv 0).selectError = none
      ∧ (∃ u ∈ sampleUsers, u.email = "b@x.com")
      ∧ (∀ u ∈ sampleUsers, u.email = "b@x.com" →
          (sampleEnv 0).bcryptCompare "wrong" u.password = .ok false)
      ∧ (∀ u ∈ sampleUsers, u.email ≠ "nobody@x.com")
      ∧ ∃ resp, (serve (login (sampleEnv 0) ⟨"b@x.com", "wrong"⟩) sampleUsers).1 = .ok resp
        ∧ (serve (login (sampleEnv 0) ⟨"nobody@x.com", "hunter2"⟩) sampleUsers).1 = .ok resp
        ∧ resp.status = 401 :=
  ⟨rfl, by decide, sampleUsers_wrong, by decide,
    login_wrong_password_same_as_unknown (sampleEnv 0) sampleUsers "b@x.com" "wrong"
      "nobody@x.com" "hunter2" rfl (by decide) sampleUsers_wrong (by decide)⟩

/-- C4: for every request and table, and however the collaborators behave,
whenever POST /login does not succeed (its status is not 200) it still sends a
response, with status 401 or 500, whose JSON body has the fields username, email
and token, all three null. -/
theorem login_failure_body (env : Env) (users : List User) (body : LoginBody)
    (hfail : statusOf (serve (login env body) users).1 ≠ some 200) :
    ∃ resp, (serve (login env body) users).1 = .ok resp
      ∧ (resp.status = 401 ∨ resp.status = 500)
      ∧ resp.body.get? "username" = some .null
      ∧ resp.body.get? "email" = some .null
      ∧ resp.body.get? "token" = some .null := by
  rcases serve_login_cases env body users with h | h | ⟨u, token, _, _, _, _, h⟩
  · exact ⟨loginInternalError, h, Or.inr rfl, rfl, rfl, rfl⟩
  · exact ⟨loginUnauthorized, h, Or.inl rfl, rfl, rfl, rfl⟩
  · rw [h] at hfail
    exact absurd rfl hfail

theorem login_failure_body_witness :
    statusOf (serve (login downEnv ⟨"b@x.com", "hunter2"⟩) sampleUsers).1 ≠ some 200
      ∧ ∃ resp, (serve (login downEnv ⟨"b@x.com", "hunter2"⟩) sampleUsers).1 = .ok resp
        ∧ (resp.status = 401 ∨ resp.status = 500)
        ∧ resp.body.get? "username" = some .null
        ∧ resp.body.get? "email" = some .null
        ∧ resp.body.get? "token" = some .null :=
  ⟨by decide, login_failure_body downEnv sampleUsers ⟨"b@x.com", "hunter2"⟩ (by decide)⟩

/-- C5: for every successful POST /register (one answered with status 201, or one
that inserted a row: the two coincide), exactly one row was inserted, the status
is 201, and the body is the object with the two fields message and data, where
data has exactly the fields id, username and email, holding the id, username and
email of the inserted row.  The body is built from these three values alone:
it has no field for the submitted password or for its hash. -/
theorem register_created_body (env : Env) (users : List User) (body : RegisterBody)
    (hsucc : statusOf (serve (register env body) users).1 = some 201
      ∨ (serve (register env body) users).2.users ≠ users) :
    ∃ row resp data, (serve (register env body) users).2.users = users ++ [row]
      ∧ (serve (register env body) users).1 = .ok resp
      ∧ resp.status = 201
      ∧ resp = registerCreated row.id row.username row.email
      ∧ resp.body.keys = ["message", "data"]
      ∧ resp.body.get? "data" = some data
      ∧ data.keys = ["id", "username", "email"]
      ∧ data.get? "id" = some (.num row.id)
      ∧ data.get? "username" = some (.str row.username)
      ∧ data.get? "email" = some (.str row.email) := by
  rcases serve_register_cases env body users with ⟨_, h⟩ | ⟨_, _, h⟩ | ⟨_, _, _, h⟩
    | ⟨_, _, _, _, _, h⟩ | ⟨x, _, _, _, _, h⟩
  · rw [h] at hsucc
    rcases hsucc with h1 | h1
    · simp [statusOf, registerInternalError, registerConflict] at h1
    · exact absurd rfl h1
  · rw [h] at hsucc
    rcases hsucc with h1 | h1
    · simp [statusOf, registerInternalError, registerConflict] at h1
    · exact absurd rfl h1
  · rw [h] at hsucc
    rcases hsucc with h1 | h1
    · simp [statusOf, registerInternalError, registerConflict] at h1
    · exact absurd rfl h1
  · rw [h] at hsucc
    rcases hsucc with h1 | h1
    · simp [statusOf, registerInternalError, registerConflict] at h1
    · exact absurd rfl h1
  · refine ⟨newUser env body x, registerCreated (newUser env body x).id body.username body.email,
      .obj [("id", .num (newUser env body x).id), ("username", .str body.username),
        ("email", .str body.email)], ?_, ?_, rfl, rfl, rfl, rfl, rfl, rfl, rfl, rfl⟩
    · rw [h]
    · rw [h]
      rfl

theorem register_created_body_witness :
    (statusOf (serve (register (sampleEnv 6) ⟨"alice", "a@x.com", "secret123"⟩)
          sampleUsers).1 = some 201
      ∨ (serve (register (sampleEnv 6) ⟨"alice", "a@x.com", "secret123"⟩)
          sampleUsers).2.users ≠ sampleUsers)
    ∧ ∃ row resp data,
      (serve (register (sampleEnv 6) ⟨"alice", "a@x.com", "secret123"⟩) sampleUsers).2.users
        = sampleUsers ++ [row]
      ∧ (serve (register (sampleEnv 6) ⟨"alice", "a@x.com", "secret123"⟩) sampleUsers).1
        = .ok resp
      ∧ resp.status = 201
      ∧ resp = registerCreated row.id row.username row.email
      ∧ resp.body.keys = ["message", "data"]
      ∧ resp.body.get? "data" = some data
      ∧ data.keys = ["id", "username", "email"]
      ∧ data.get? "id" = some (.num row.id)
      ∧ data.get? "username" = some (.str row.username)
      ∧ data.get? "email" = some (.str row.email) :=
  ⟨Or.inl rfl,
    register_created_body (sampleEnv 6) sampleUsers ⟨"alice", "a@x.com", "secret123"⟩
      (Or.inl rfl)⟩

/-- C6: email uniqueness is an invariant of the table under Register: if no two
rows share an email, then after any sequence of POST /register requests served
one after the other, whatever each of them does, no two rows share an email. -/
theorem registerAll_emailUnique (reqs : List (Env × RegisterBody)) (users : List User)
    (h : EmailUnique users) : EmailUnique (registerAll reqs users) := by
  induction reqs generalizing users with
  | nil => exact h
  | cons req rest ih =>
    obtain ⟨env, body⟩ := req
    simp only [registerAll]
    apply ih
    rcases register_users env body users with hsame | ⟨x, hfresh, happ⟩
    · rw [hsame]
      exact h
    · rw [happ]
      exact h.append_fresh (newUser env body x) hfresh

theorem registerAll_emailUnique_witness :
    EmailUnique sampleUsers
      ∧ EmailUnique (registerAll
          [(sampleEnv 6, ⟨"alice", "a@x.com", "secret123"⟩),
           (sampleEnv 7, ⟨"mallory", "a@x.com", "other"⟩),
           (downEnv, ⟨"carol", "c@x.com", "pw"⟩)] sampleUsers) :=
  ⟨List.pairwise_singleton _ _,
    registerAll_emailUnique _ sampleUsers (List.pairwise_singleton _ _)⟩

/-- C7 (the code at a failing input): on a table whose only account has id 1,
POST /register for a new email, when `Math.floor(Math.random() * 100)` is 0,
answers 201 and inserts a second row with id 1: the table had unique ids and no
longer has. -/
theorem register_id_collision :
    IdUnique sampleUsers
      ∧ statusOf (serve (register (sampleEnv 0) ⟨"alice", "a@x.com", "secret123"⟩)
          sampleUsers).1 = some 201
      ∧ (serve (register (sampleEnv 0) ⟨"alice", "a@x.com", "secret123"⟩) sampleUsers).2.users
          = [⟨1, "bob", "b@x.com", "$hunter2"⟩, ⟨1, "alice", "a@x.com", "$secret123"⟩]
      ∧ (serve (register (sampleEnv 0) ⟨"alice", "a@x.com", "secret123"⟩) sampleUsers).2.calls
          = [.select "a@x.com", .hash "secret123" 10,
              .insert ⟨1, "alice", "a@x.com", "$secret123"⟩]
      ∧ ¬ IdUnique (serve (register (sampleEnv 0) ⟨"alice", "a@x.com", "secret123"⟩)
          sampleUsers).2.users := by
  refine ⟨List.pairwise_singleton _ _, rfl, rfl, rfl, ?_⟩
  intro hu
  have h2 : (serve (register (sampleEnv 0) ⟨"alice", "a@x.com", "secret123"⟩)
      sampleUsers).2.users
      = [⟨1, "bob", "b@x.com", "$hunter2"⟩, ⟨1, "alice", "a@x.com", "$secret123"⟩] := rfl
  rw [h2, IdUnique, List.pairwise_cons] at hu
  exact hu.1 _ (List.mem_singleton.mpr rfl) rfl

/-- C8: when the table holds an account `u` for an email (the only one for that
email), the lookup returns, the submitted password verifies against the hash
stored for `u`, and the signer returns `token` for the claims made of exactly
the id and the username of `u`, under the configured secret and with the expiry
"30d", POST /login answers with status 200, the username and the email of `u`,
and that token; the signer was called with exactly those arguments. -/
theorem login_success (env : Env) (users : List User) (u : User) (password token : String)
    (hu : u ∈ users) (honly : ∀ v ∈ users, v.email = u.email → v = u)
    (hs : env.selectError = none)
    (hv : env.bcryptCompare password u.password = .ok true)
    (ht : env.jwtSign ⟨u.id, u.username⟩ env.JWT_SECRET "30d" = .ok token) :
    ∃ resp, (serve (login env ⟨u.email, password⟩) users).1 = .ok resp
      ∧ resp.status = 200
      ∧ resp.body.get? "username" = some (.str u.username)
      ∧ resp.body.get? "email" = some (.str u.email)
      ∧ resp.body.get? "token" = some (.str token)
      ∧ Call.sign ⟨u.id, u.username⟩ env.JWT_SECRET "30d"
          ∈ (serve (login env ⟨u.email, password⟩) users).2.calls := by
  have hrun := serve_login_ok env ⟨u.email, password⟩ users u token hs
    (head_selectByEmail_of_only users u hu honly) hv ht
  refine ⟨loginOk u token, by rw [hrun], rfl, rfl, rfl, rfl, ?_⟩
  rw [hrun]
  simp

theorem login_success_witness :
    (⟨1, "bob", "b@x.com", "$hunter2"⟩ : User) ∈ sampleUsers
      ∧ (∀ v ∈ sampleUsers, v.email = "b@x.com" → v = ⟨1, "bob", "b@x.com", "$hunter2"⟩)
      ∧ (sampleEnv 0).selectError = none
      ∧ (sampleEnv 0).bcryptCompare "hunter2" "$hunter2" = .ok true
      ∧ (sampleEnv 0).jwtSign ⟨1, "bob"⟩ (sampleEnv 0).JWT_SECRET "30d" = .ok "bob.k.30d"
      ∧ ∃ resp, (serve (login (sampleEnv 0) ⟨"b@x.com", "hunter2"⟩) sampleUsers).1 = .ok resp
        ∧ resp.status = 200
        ∧ resp.body.get? "username" = some (.str "bob")
        ∧ resp.body.get? "email" = some (.str "b@x.com")
        ∧ resp.body.get? "token" = some (.str "bob.k.30d")
        ∧ Call.sign ⟨1, "bob"⟩ (sampleEnv 0).JWT_SECRET "30d"
            ∈ (serve (login (sampleEnv 0) ⟨"b@x.com", "hunter2"⟩) sampleUsers).2.calls :=
  ⟨by decide, by decide, rfl, rfl, rfl,
    login_success (sampleEnv 0) sampleUsers ⟨1, "bob", "b@x.com", "$hunter2"⟩ "hunter2"
      "bob.k.30d" (by decide) (by decide) rfl rfl rfl⟩

/-- C9: for every request to POST /register, if the email lookup throws, or the
lookup finds no account and the password hashing or the INSERT throws, the
exception is caught inside the handler: a response is sent, with status 500 and
a body whose only field is the fixed message "Internal server error" (so it
holds no password, hash or detail of the exception), and the table is unchanged. -/
theorem register_failure_caught (env : Env) (users : List User) (body : RegisterBody)
    (hfail : env.selectError ≠ none
      ∨ (selectByEmail users body.email = []
          ∧ ((∃ e, env.bcryptHash body.password 10 = .error e) ∨ env.insertError ≠ none))) :
    ∃ resp, (serve (register env body) users).1 = .ok resp
      ∧ resp.status = 500
      ∧ resp.body = .obj [("message", .str "Internal server error")]
      ∧ resp.body.keys = ["message"]
      ∧ (serve (register env body) users).2.users = users := by
  rcases serve_register_cases env body users with ⟨_, h⟩ | ⟨hs, hsel, _⟩ | ⟨_, _, _, h⟩
    | ⟨_, _, _, _, _, h⟩ | ⟨x, hs, _, hh, hi, _⟩
  · exact ⟨registerInternalError, by rw [h], rfl, rfl, rfl, by rw [h]⟩
  · rcases hfail with h1 | ⟨h1, _⟩
    · exact absurd hs h1
    · exact absurd h1 hsel
  · exact ⟨registerInternalError, by rw [h], rfl, rfl, rfl, by rw [h]⟩
  · exact ⟨registerInternalError, by rw [h], rfl, rfl, rfl, by rw [h]⟩
  · rcases hfail with h1 | ⟨_, ⟨e, h1⟩ | h1⟩
    · exact absurd hs h1
    · rw [hh] at h1
      cases h1
    · exact absurd hi h1

theorem register_failure_caught_witness :
    (brokenHashEnv.selectError ≠ none
      ∨ (selectByEmail sampleUsers "a@x.com" = []
          ∧ ((∃ e, brokenHashEnv.bcryptHash "secret123" 10 = .error e)
            ∨ brokenHashEnv.insertError ≠ none)))
    ∧ ∃ resp, (serve (register brokenHashEnv ⟨"alice", "a@x.com", "secret123"⟩)
          sampleUsers).1 = .ok resp
      ∧ resp.status = 500
      ∧ resp.body = .obj [("message", .str "Internal server error")]
      ∧ resp.body.keys = ["message"]
      ∧ (serve (register brokenHashEnv ⟨"alice", "a@x.com", "secret123"⟩) sampleUsers).2.users
          = sampleUsers :=
  ⟨Or.inr ⟨rfl, Or.inl ⟨_, rfl⟩⟩,
    register_failure_caught brokenHashEnv sampleUsers ⟨"alice", "a@x.com", "secret123"⟩
      (Or.inr ⟨rfl, Or.inl ⟨_, rfl⟩⟩)⟩

/-- C10: the plaintext password is never persisted or compared directly.
(1) For every POST /register answered with 201, `bcrypt.hash` was called with the
submitted password at cost 10 and returned some `h`, and the row inserted has
`h` in its password column: whenever `h` differs from the submitted password,
so does the stored value.
(2) For every POST /login answered with 200, `bcrypt.compare` was called with the
submitted password and the hash stored in the row found, and returned true.
(3) Whenever the lookup returns a row and `bcrypt.compare` returns false for the
submitted password and the stored hash, POST /login answers 401, also when the
submitted password is equal to the stored value. -/
theorem password_only_hashed (env : Env) (users : List User) (rb : RegisterBody)
    (lb : LoginBody) :
    (statusOf (serve (register env rb) users).1 = some 201 →
      ∃ h, env.bcryptHash rb.password 10 = .ok h
        ∧ Call.hash rb.password 10 ∈ (serve (register env rb) users).2.calls
        ∧ (serve (register env rb) users).2.users
            = users ++ [⟨(env.random100.val : Int) + 1, rb.username, rb.email, h⟩]
        ∧ (h ≠ rb.password →
            ∀ row ∈ (serve (register env rb) users).2.users, row ∉ users →
              row.password ≠ rb.password))
    ∧ (statusOf (serve (login env lb) users).1 = some 200 →
      ∃ u, (selectByEmail users lb.email).head? = some u
        ∧ env.bcryptCompare lb.password u.password = .ok true
        ∧ Call.compare lb.password u.password ∈ (serve (login env lb) users).2.calls)
    ∧ (∀ u, env.selectError = none → (selectByEmail users lb.email).head? = some u →
        env.bcryptCompare lb.password u.password = .ok false →
        statusOf (serve (login env lb) users).1 = some 401) := by
  refine ⟨?_, ?_, ?_⟩
  · intro h201
    rcases serve_register_cases env rb users with ⟨_, h⟩ | ⟨_, _, h⟩ | ⟨_, _, _, h⟩
      | ⟨_, _, _, _, _, h⟩ | ⟨x, _, _, hh, _, h⟩
    · rw [h] at h201
      simp [statusOf, registerInternalError] at h201
    · rw [h] at h201
      simp [statusOf, registerConflict] at h201
    · rw [h] at h201
      simp [statusOf, registerInternalError] at h201
    · rw [h] at h201
      simp [statusOf, registerInternalError] at h201
    · refine ⟨x, hh, ?_, ?_, ?_⟩
      · rw [h]
        simp
      · rw [h]
        rfl
      · intro hne row hrow hnot
        rw [h] at hrow
        rcases List.mem_append.mp hrow with hin | hin
        · exact absurd hin hnot
        · rw [List.mem_singleton] at hin
          subst hin
          exact hne
  · intro h200
    cases hs : env.selectError with
    | some e =>
      rw [serve_login_selectError env lb users e hs] at h200
      simp [statusOf, loginInternalError] at h200
    | none =>
      cases hu : (selectByEmail users lb.email).head? with
      | none =>
        rw [serve_login_unknown env lb users hs hu] at h200
        simp [statusOf, loginUnauthorized] at h200
      | some u =>
        cases hc : env.bcryptCompare lb.password u.password with
        | error e =>
          rw [serve_login_compareError env lb users u e hs hu hc] at h200
          simp [statusOf, loginInternalError] at h200
        | ok b =>
          cases b with
          | false =>
            rw [serve_login_mismatch env lb users u hs hu hc] at h200
            simp [statusOf, loginUnauthorized] at h200
          | true =>
            refine ⟨u, rfl, hc, ?_⟩
            cases ht : env.jwtSign ⟨u.id, u.username⟩ env.JWT_SECRET "30d" with
            | error e =>
              rw [serve_login_signError env lb users u e hs hu hc ht]
              simp
            | ok token =>
              rw [serve_login_ok env lb users u token hs hu hc ht]
              simp
  · intro u hs hu hc
    rw [serve_login_mismatch env lb users u hs hu hc]
    rfl

theorem password_only_hashed_witness :
    (statusOf (serve (register (sampleEnv 6) ⟨"alice", "a@x.com", "secret123"⟩)
        sampleUsers).1 = some 201
      ∧ ∃ h, (sampleEnv 6).bcryptHash "secret123" 10 = .ok h
        ∧ Call.hash "secret123" 10
            ∈ (serve (register (sampleEnv 6) ⟨"alice", "a@x.com", "secret123"⟩)
                sampleUsers).2.calls
        ∧ (serve (register (sampleEnv 6) ⟨"alice", "a@x.com", "secret123"⟩) sampleUsers).2.users
            = sampleUsers ++ [⟨7, "alice", "a@x.com", h⟩]
        ∧ (h ≠ "secret123" →
            ∀ row ∈ (serve (register (sampleEnv 6) ⟨"alice", "a@x.com", "secret123"⟩)
                sampleUsers).2.users, row ∉ sampleUsers → row.password ≠ "secret123"))
    ∧ (statusOf (serve (login (sampleEnv 6) ⟨"b@x.com", "hunter2"⟩) sampleUsers).1 = some 200
      ∧ ∃ u, (selectByEmail sampleUsers "b@x.com").head? = some u
        ∧ (sampleEnv 6).bcryptCompare "hunter2" u.password = .ok true
        ∧ Call.compare "hunter2" u.password
            ∈ (serve (login (sampleEnv 6) ⟨"b@x.com", "hunter2"⟩) sampleUsers).2.calls)
    ∧ ((sampleEnv 6).selectError = none
      ∧ (selectByEmail plainUsers "b@x.com").head? = some ⟨1, "bob", "b@x.com", "hunter2"⟩
      ∧ (sampleEnv 6).bcryptCompare "hunter2" "hunter2" = .ok false
      ∧ statusOf (serve (login (sampleEnv 6) ⟨"b@x.com", "hunter2"⟩) plainUsers).1 = some 401) :=
  ⟨⟨rfl, (password_only_hashed (sampleEnv 6) sampleUsers ⟨"alice", "a@x.com", "secret123"⟩
      ⟨"b@x.com", "hunter2"⟩).1 rfl⟩,
    ⟨rfl, (password_only_hashed (sampleEnv 6) sampleUsers ⟨"alice", "a@x.com", "secret123"⟩
      ⟨"b@x.com", "hunter2"⟩).2.1 rfl⟩,
    ⟨rfl, rfl, rfl, (password_only_hashed (sampleEnv 6) plainUsers
      ⟨"alice", "a@x.com", "secret123"⟩ ⟨"b@x.com", "hunter2"⟩).2.2
        ⟨1, "bob", "b@x.com", "hunter2"⟩ rfl rfl rfl⟩⟩

end EduTrash
